import Mathlib

/-!
Shallow embedding of the connection handshake / login / configuration
handlers of `src/pumpkin/src/client/client_packet.rs` (impl `Client`).

Rust strings are modelled as `List Char` (Unicode scalar values); byte
buffers as `List Nat` (each < 256).  A handler is a pure function from
its inputs and the relevant per-connection state to the new state and the
ordered list of observable actions (`kick`, `send_packet`, mode switches)
it performs.  Results of external calls the handler makes (RSA
decryption, `set_encryption`, the identity service, BungeeCord login,
texture validation) are passed in as parameters, since those functions
live outside this file's sources.  A handler that reaches a Rust
`.unwrap()` on an `Err`/`None` value panics; this is modelled by
returning `none`.
-/

namespace Pumpkin

/-- Connection phases, from `pumpkin_protocol::ConnectionState`. -/
inductive ConnectionState where
  | HandShake
  | Status
  | Login
  | Transfer
  | Config
  | Play
  deriving DecidableEq, Repr

/-- A profile property of name, value and optional signature (e.g. skin data). -/
structure Property where
  name : List Char
  value : List Char
  signature : Option (List Char)
  deriving DecidableEq, Repr

/-- `GameProfile` from `crate::client::authentication`. -/
structure GameProfile where
  id : Nat
  name : List Char
  properties : List Property
  profile_actions : Option (List (List Char))
  deriving DecidableEq, Repr

/-- A cached registry dataset held by the `Server`. -/
structure Registry where
  registry_id : List Char
  registry_entries : List Nat
  deriving DecidableEq, Repr

/-- The configuration snapshot the handlers read
(`BASIC_CONFIG.online_mode`, `ADVANCED_CONFIG.proxy`,
`ADVANCED_CONFIG.authentication.player_profile`,
`ADVANCED_CONFIG.packet_compression`). -/
structure Config where
  online_mode : Bool
  proxy_enabled : Bool
  velocity_enabled : Bool
  bungeecord_enabled : Bool
  allow_banned_players : Bool
  allowed_actions : List (List Char)
  compression_enabled : Bool
  compression_threshold : Int
  deriving DecidableEq, Repr

/-- The per-connection fields of `Client` that the embedded handlers read
or write. -/
structure ClientState where
  connection_state : ConnectionState
  protocol_version : Int
  server_address : List Char
  gameprofile : Option GameProfile
  brand : Option (List Nat)
  compression : Option Int
  encryption : Bool
  deriving DecidableEq, Repr

/-- Observable actions of one handler invocation, in program order. -/
inductive Act where
  | kick (reason : List Char)
  | sendEncryptionRequest (onlineMode : Bool)
  | setEncryption
  | sendSetCompression (threshold : Int)
  | setCompressionCtx (threshold : Int)
  | sendLoginSuccess (id : Nat) (name : List Char)
  | sendRegistryData (registryId : List Char) (entries : List Nat)
  | sendFinishConfig
  | velocityLoginStart
  deriving DecidableEq, Repr

/-- Decimal rendering of an integer, as Rust's `format!` interpolates it. -/
def intChars (n : Int) : List Char :=
  (toString n).toList

/-- Rust `i32::cmp`. -/
def intCmp (a b : Int) : Ordering :=
  if a < b then .lt else if a = b then .eq else .gt

/-- The kick text the handshake handler formats for an outdated client:
the declared protocol, then the server version text CURRENT_MC_VERSION
and the server protocol CURRENT_MC_PROTOCOL, which are passed in as they
are defined outside this file's sources. -/
def outdatedClientMsg (protocol cur : Int) (mcVersion : List Char) : List Char :=
  ("Client outdated (").toList ++ intChars protocol ++ ("), Server uses Minecraft ").toList
    ++ mcVersion ++ (", Protocol ").toList ++ intChars cur

/-- The kick text the handshake handler formats for an outdated server:
the server version text and the server protocol. -/
def outdatedServerMsg (cur : Int) (mcVersion : List Char) : List Char :=
  ("Server outdated, Server uses Minecraft ").toList ++ mcVersion
    ++ (", Protocol ").toList ++ intChars cur

/-- `Client::handle_handshake`: store the declared protocol version,
server address and next state; when the new state is not `Status`,
compare the version with the server's protocol and kick on a mismatch. -/
def handle_handshake (cur : Int) (mcVersion : List Char) (st : ClientState)
    (protocol_version : Int) (server_address : List Char)
    (next_state : ConnectionState) : ClientState × List Act :=
  let st := { st with protocol_version := protocol_version,
                      server_address := server_address,
                      connection_state := next_state }
  if st.connection_state ≠ ConnectionState.Status then
    match intCmp protocol_version cur with
    | .lt => (st, [Act.kick (outdatedClientMsg protocol_version cur mcVersion)])
    | .eq => (st, [])
    | .gt => (st, [Act.kick (outdatedServerMsg cur mcVersion)])
  else (st, [])

/-- `char::len_utf8` of Rust: the number of bytes a scalar value occupies
in UTF-8.  `String::len` in Rust is the sum of these. -/
def charUtf8Size (c : Char) : Nat :=
  if c.toNat < 0x80 then 1
  else if c.toNat < 0x800 then 2
  else if c.toNat < 0x10000 then 3
  else 4

/-- Rust `str::len`: the UTF-8 byte length of the string. -/
def rustStrLen (s : List Char) : Nat :=
  (s.map charUtf8Size).sum

/-- `Client::is_valid_player_name`: byte length at most 16 and every
char strictly above U+0020 and strictly below U+007F. -/
def is_valid_player_name (name : List Char) : Bool :=
  decide (rustStrLen name ≤ 16)
    && name.all (fun c => decide (32 < c.toNat) && decide (c.toNat < 127))

/-- `Client::finish_login`: when compression is configured enabled, send
`CSetCompression` with the configured threshold and activate the
compression context, then send `CLoginSuccess` for the given profile. -/
def finish_login (cfg : Config) (profile : GameProfile) (st : ClientState) :
    ClientState × List Act :=
  if cfg.compression_enabled then
    ({ st with compression := some cfg.compression_threshold },
     [Act.sendSetCompression cfg.compression_threshold,
      Act.setCompressionCtx cfg.compression_threshold,
      Act.sendLoginSuccess profile.id profile.name])
  else
    (st, [Act.sendLoginSuccess profile.id profile.name])

/-- `Client::handle_login_start`.  `bungeeResult` is the outcome of
`bungeecord_login` (external), carrying either the forwarded profile or
an error description. -/
def handle_login_start (cfg : Config) (st : ClientState)
    (login_name : List Char) (login_uuid : Nat)
    (bungeeResult : Except (List Char) GameProfile) :
    ClientState × List Act :=
  if ¬ is_valid_player_name login_name then
    (st, [Act.kick ("Invalid characters in username").toList])
  else if cfg.proxy_enabled then
    if cfg.velocity_enabled then
      (st, [Act.velocityLoginStart])
    else if cfg.bungeecord_enabled then
      match bungeeResult with
      | .ok profile =>
        let r := finish_login cfg profile st
        ({ r.1 with gameprofile := some profile }, r.2)
      | .error e => (st, [Act.kick e])
    else (st, [])
  else
    ({ st with gameprofile := some { id := login_uuid, name := login_name,
                                     properties := [], profile_actions := none } },
     [Act.sendEncryptionRequest cfg.online_mode])

/-- `crate::client::authentication::AuthError`, as the login handlers
observe it: an error propagated from `authentication::authenticate`, a
texture-validation error, or a missing auth client.  `toText` stands for
its `Display` rendering (defined outside this file's sources); for the
propagated service error it carries that error's own description. -/
inductive AuthError where
  | service (msg : List Char)
  | texture (msg : List Char)
  | missingAuthClient
  deriving DecidableEq, Repr

def AuthError.toText : AuthError → List Char
  | .service m => m
  | .texture m => m
  | .missingAuthClient => ("Missing Authentication Client").toList

def cantJoinMsg : List Char :=
  ("Your account can\x27t join").toList

/-- The kicks the ban-policy section of `Client::autenticate` issues for
a verified profile: when banned players are disallowed, one kick if the
action list is non-empty; otherwise one kick per configured allowed
action that the profile's action list does not contain (the loop keeps
running after a kick). -/
def banPolicyKicks (cfg : Config) (profile : GameProfile) : List Act :=
  match profile.profile_actions with
  | none => []
  | some actions =>
    if ¬ cfg.allow_banned_players then
      if ¬ actions.isEmpty then [Act.kick cantJoinMsg] else []
    else
      (cfg.allowed_actions.filter (fun allowed => ¬ actions.contains allowed)).map
        (fun _ => Act.kick cantJoinMsg)

/-- First failing property under `validate_textures`, mirroring the
`for`/`?` loop in `Client::autenticate`. -/
def firstTextureError (validateTex : Property → Except (List Char) Unit) :
    List Property → Option (List Char)
  | [] => none
  | p :: ps =>
    match validateTex p with
    | .error e => some e
    | .ok _ => firstTextureError validateTex ps

/-- `Client::autenticate`.  `auth_client` says whether
`server.auth_client` is present; `authResult` is the outcome of the
external `authentication::authenticate` call; `validateTex` is the
external `validate_textures` check.  Returns the handler's `Result`
together with the kicks it issued along the way. -/
def autenticate (cfg : Config) (auth_client : Bool)
    (authResult : Except (List Char) GameProfile)
    (validateTex : Property → Except (List Char) Unit) :
    Except AuthError GameProfile × List Act :=
  if auth_client then
    match authResult with
    | .error e => (.error (.service e), [])
    | .ok profile =>
      let kicks := banPolicyKicks cfg profile
      match firstTextureError validateTex profile.properties with
      | some e => (.error (.texture e), kicks)
      | none => (.ok profile, kicks)
  else (.error .missingAuthClient, [])

/-- `Client::handle_encryption_response`.  `decryptResult` is the
outcome of `server.decrypt` on the enclosed shared secret;
`setEncryptionResult` the outcome of `self.set_encryption`.  The source
calls `.unwrap()` on `decryptResult` and, in online mode, on the
connection's stored game profile: an `Err`/`None` there panics, which
this model returns as `none`. -/
def handle_encryption_response (cfg : Config) (auth_client : Bool)
    (decryptResult : Except (List Char) (List Nat))
    (setEncryptionResult : Except (List Char) Unit)
    (authResult : Except (List Char) GameProfile)
    (validateTex : Property → Except (List Char) Unit)
    (st : ClientState) : Option (ClientState × List Act) :=
  match decryptResult with
  | .error _ => none
  | .ok _shared =>
    let stEnc : ClientState × List Act :=
      match setEncryptionResult with
      | .ok _ => ({ st with encryption := true }, [Act.setEncryption])
      | .error e => (st, [Act.kick e])
    let st := stEnc.1
    let encTrace := stEnc.2
    if cfg.online_mode then
      match st.gameprofile with
      | none => none
      | some gp0 =>
        match autenticate cfg auth_client authResult validateTex with
        | (.ok profile, kicks) =>
          let st := { st with gameprofile := some profile }
          let r := finish_login cfg profile st
          some (r.1, encTrace ++ kicks ++ r.2)
        | (.error e, kicks) =>
          let r := finish_login cfg gp0 st
          some (r.1, encTrace ++ kicks ++ [Act.kick e.toText] ++ r.2)
    else
      match st.gameprofile with
      | some gp =>
        let r := finish_login cfg gp st
        some (r.1, encTrace ++ r.2)
      | none => some (st, encTrace ++ [Act.kick ("No Game profile").toList])

/-- A UTF-8 continuation byte. -/
def utf8Cont (b : Nat) : Bool :=
  decide (0x80 ≤ b) && decide (b < 0xC0)

/-- Rust's `String::from_utf8` validity check on a byte sequence
(rejecting overlong encodings, surrogates and values above U+10FFFF). -/
def utf8Valid : List Nat → Bool
  | [] => true
  | b :: rest =>
    if b < 0x80 then utf8Valid rest
    else if b < 0xC2 then false
    else if b < 0xE0 then
      match rest with
      | b1 :: rest2 => utf8Cont b1 && utf8Valid rest2
      | [] => false
    else if b < 0xF0 then
      match rest with
      | b1 :: b2 :: rest3 =>
        (if b = 0xE0 then decide (0xA0 ≤ b1) && decide (b1 < 0xC0)
         else if b = 0xED then decide (0x80 ≤ b1) && decide (b1 < 0xA0)
         else utf8Cont b1) && utf8Cont b2 && utf8Valid rest3
      | _ => false
    else if b < 0xF5 then
      match rest with
      | b1 :: b2 :: b3 :: rest4 =>
        (if b = 0xF0 then decide (0x90 ≤ b1) && decide (b1 < 0xC0)
         else if b = 0xF4 then decide (0x80 ≤ b1) && decide (b1 < 0x90)
         else utf8Cont b1) && utf8Cont b2 && utf8Cont b3 && utf8Valid rest4
      | _ => false
    else false

/-- The two channel-name spellings `Client::handle_plugin_message`
matches with `starts_with`. -/
def brandChannelNew : List Char := ("minecraft:brand").toList

def brandChannelOld : List Char := ("MC|Brand").toList

/-- `Client::handle_plugin_message`: on a channel whose name starts with
either brand spelling, store the payload as the client brand when it is
valid UTF-8 and kick otherwise; any other channel is ignored.  The brand
is stored as the raw payload bytes (the source stores the decoded
string, an equivalent view of the same bytes); the kick text stands for
the `FromUtf8Error` rendering, defined outside this file's sources. -/
def handle_plugin_message (st : ClientState) (channel : List Char)
    (data : List Nat) : ClientState × List Act :=
  if brandChannelNew.isPrefixOf channel || brandChannelOld.isPrefixOf channel then
    if utf8Valid data then
      ({ st with brand := some data }, [])
    else
      (st, [Act.kick ("invalid utf-8 sequence").toList])
  else (st, [])

/-- `Client::handle_known_packs`: send one `CRegistryData` per cached
registry dataset, in the server's stored order, then `CFinishConfig`. -/
def handle_known_packs (cached_registry : List Registry) (st : ClientState) :
    ClientState × List Act :=
  (st, cached_registry.map
         (fun r => Act.sendRegistryData r.registry_id r.registry_entries)
       ++ [Act.sendFinishConfig])

/-! Concrete fixtures used by the counterexample-style evaluations and
the witnesses: a strict-ban online configuration, an offline
configuration, a connection state as `handle_login_start` leaves it for
the name Steve, and a service profile carrying one ban-action tag. -/

def steveName : List Char := ("Steve").toList

def provisionalSteve : GameProfile :=
  { id := 7
    name := steveName
    properties := []
    profile_actions := none }

def cfgStrict : Config :=
  { online_mode := true
    proxy_enabled := false
    velocity_enabled := false
    bungeecord_enabled := false
    allow_banned_players := false
    allowed_actions := []
    compression_enabled := false
    compression_threshold := 0 }

def cfgOffline : Config :=
  { cfgStrict with online_mode := false }

def stFresh : ClientState :=
  { connection_state := .Login
    protocol_version := 767
    server_address := []
    gameprofile := none
    brand := none
    compression := none
    encryption := false }

def stLoginSteve : ClientState :=
  { stFresh with gameprofile := some provisionalSteve }

def bannedProfile : GameProfile :=
  { id := 9
    name := steveName
    properties := []
    profile_actions := some [("FORCED_NAME_CHANGE").toList] }

/-- Texture validation that accepts every property. -/
def texAllOk : Property → Except (List Char) Unit := fun _ => .ok ()

/-! Helper lemmas. -/

theorem intCmp_lt {a b : Int} (h : a < b) : intCmp a b = .lt := by
  unfold intCmp
  rw [if_pos h]

theorem intCmp_eq {a b : Int} (h : a = b) : intCmp a b = .eq := by
  unfold intCmp
  rw [if_neg (by omega), if_pos h]

theorem intCmp_gt {a b : Int} (h : b < a) : intCmp a b = .gt := by
  unfold intCmp
  rw [if_neg (by omega), if_neg (by omega)]

theorem rustStrLen_eq_length (s : List Char) (h : ∀ c ∈ s, c.toNat < 127) :
    rustStrLen s = s.length := by
  induction s with
  | nil => rfl
  | cons c cs ih =>
    have hc : c.toNat < 0x80 := by
      have := h c (List.mem_cons_self c cs)
      omega
    have ih1 := ih (fun x hx => h x (List.mem_cons_of_mem c hx))
    simp only [rustStrLen, List.map_cons, List.sum_cons, List.length_cons] at *
    rw [charUtf8Size, if_pos hc]
    omega

/-- C5: for a handshake whose declared next phase is not Status, a
declared protocol version below the server protocol kicks with a message
containing both versions, one above it kicks with the server-outdated
message, and an equal one does not kick; in every case the connection
state advances to the declared next state, and when the next phase is
Status no version comparison is applied. -/
theorem handshake_version_check (cur : Int) (mcVersion : List Char)
    (st : ClientState) (v : Int) (addr : List Char) (ns : ConnectionState) :
    (handle_handshake cur mcVersion st v addr ns).1.connection_state = ns
    ∧ (handle_handshake cur mcVersion st v addr ns).2
        = (if ns = ConnectionState.Status then []
           else if v < cur then [Act.kick (outdatedClientMsg v cur mcVersion)]
           else if cur < v then [Act.kick (outdatedServerMsg cur mcVersion)]
           else [])
    ∧ (∃ u w, outdatedClientMsg v cur mcVersion = u ++ intChars v ++ w)
    ∧ (∃ u w, outdatedClientMsg v cur mcVersion = u ++ intChars cur ++ w)
    ∧ (∃ w, outdatedServerMsg cur mcVersion = ("Server outdated").toList ++ w) := by
  refine ⟨?_, ?_, ?_, ?_, ?_⟩
  · unfold handle_handshake
    by_cases hns : ns = ConnectionState.Status
    · simp [hns]
    · simp only [hns, if_pos, ne_eq, not_false_eq_true, if_true]
      cases h : intCmp v cur <;> simp [hns]
  · unfold handle_handshake
    by_cases hns : ns = ConnectionState.Status
    · simp [hns]
    · rcases lt_trichotomy v cur with h | h | h
      · simp [hns, intCmp_lt h, h]
      · subst h
        simp [hns, intCmp_eq rfl]
      · simp [hns, intCmp_gt h, not_lt_of_gt h, h]
  · refine ⟨("Client outdated (").toList,
      ("), Server uses Minecraft ").toList ++ mcVersion
        ++ (", Protocol ").toList ++ intChars cur, ?_⟩
    simp [outdatedClientMsg]
  · refine ⟨("Client outdated (").toList ++ intChars v
        ++ ("), Server uses Minecraft ").toList ++ mcVersion
        ++ (", Protocol ").toList, [], ?_⟩
    simp [outdatedClientMsg]
  · refine ⟨(", Server uses Minecraft ").toList ++ mcVersion
        ++ (", Protocol ").toList ++ intChars cur, ?_⟩
    have h : ("Server outdated, Server uses Minecraft ").toList
        = ("Server outdated").toList ++ ((", Server uses Minecraft ").toList) := by
      decide
    simp [outdatedServerMsg, h]

/-- C6: the username validator accepts a name exactly when its length is
at most 16 and every character lies strictly between code points 32 and
127, and an invalid name makes `handle_login_start` kick with the
invalid-characters message and do nothing else. -/
theorem username_validation (name : List Char) (cfg : Config)
    (st : ClientState) (uuid : Nat)
    (bungee : Except (List Char) GameProfile) :
    (is_valid_player_name name = true
       ↔ name.length ≤ 16 ∧ ∀ c ∈ name, 32 < c.toNat ∧ c.toNat < 127)
    ∧ (is_valid_player_name name = false →
        handle_login_start cfg st name uuid bungee
          = (st, [Act.kick (("Invalid characters in username").toList)])) := by
  have hiff : is_valid_player_name name = true
      ↔ rustStrLen name ≤ 16 ∧ ∀ c ∈ name, 32 < c.toNat ∧ c.toNat < 127 := by
    simp [is_valid_player_name, List.all_eq_true]
  constructor
  · constructor
    · intro h
      rcases hiff.mp h with ⟨hlen, hchars⟩
      have hb := rustStrLen_eq_length name (fun c hc => (hchars c hc).2)
      exact ⟨by omega, hchars⟩
    · rintro ⟨hlen, hchars⟩
      apply hiff.mpr
      have hb := rustStrLen_eq_length name (fun c hc => (hchars c hc).2)
      exact ⟨by omega, hchars⟩
  · intro h
    unfold handle_login_start
    simp [h]

/-- C7: with compression enabled, `finish_login` sends exactly one
`SetCompression` carrying the configured threshold, activates the
compression context, and only then sends `LoginSuccess`; with
compression disabled it sends `LoginSuccess` directly and leaves the
state untouched. -/
theorem finish_login_compression_order (cfg : Config) (profile : GameProfile)
    (st : ClientState) :
    (cfg.compression_enabled = true →
        finish_login cfg profile st
          = ({ st with compression := some cfg.compression_threshold },
             [Act.sendSetCompression cfg.compression_threshold,
              Act.setCompressionCtx cfg.compression_threshold,
              Act.sendLoginSuccess profile.id profile.name]))
    ∧ (cfg.compression_enabled = false →
        finish_login cfg profile st
          = (st, [Act.sendLoginSuccess profile.id profile.name])) := by
  constructor <;> intro h <;> simp [finish_login, h]

/-- Predicate picking out `RegistryData` sends. -/
def isRegistryData : Act → Bool
  | .sendRegistryData _ _ => true
  | _ => false

/-- Predicate picking out `FinishConfig` sends. -/
def isFinishCfg : Act → Bool
  | .sendFinishConfig => true
  | _ => false

theorem filter_isRegistryData_map (cached : List Registry) :
    ((cached.map (fun r => Act.sendRegistryData r.registry_id r.registry_entries)).filter
        isRegistryData)
      = cached.map (fun r => Act.sendRegistryData r.registry_id r.registry_entries) := by
  induction cached with
  | nil => rfl
  | cons r rs ih => simp [isRegistryData, ih]

theorem filter_isFinishCfg_map (cached : List Registry) :
    ((cached.map (fun r => Act.sendRegistryData r.registry_id r.registry_entries)).filter
        isFinishCfg) = [] := by
  induction cached with
  | nil => rfl
  | cons r rs ih => simp [isFinishCfg, ih]

/-- C8: on the known-pack acknowledgement the server emits one
`RegistryData` per cached dataset, in the stored order, and then exactly
one `FinishConfig` (also when the cache is empty); the connection state
is untouched. -/
theorem known_packs_stream (cached : List Registry) (st : ClientState) :
    (handle_known_packs cached st).1 = st
    ∧ (handle_known_packs cached st).2
        = cached.map (fun r => Act.sendRegistryData r.registry_id r.registry_entries)
          ++ [Act.sendFinishConfig]
    ∧ ((handle_known_packs cached st).2.filter isRegistryData).length = cached.length
    ∧ ((handle_known_packs cached st).2.filter isFinishCfg) = [Act.sendFinishConfig]
    ∧ (handle_known_packs cached st).2.getLast? = some Act.sendFinishConfig
    ∧ (handle_known_packs cached st).2.length = cached.length + 1 := by
  refine ⟨rfl, rfl, ?_, ?_, ?_, ?_⟩
  · simp [handle_known_packs, List.filter_append, filter_isRegistryData_map,
      isRegistryData]
  · simp [handle_known_packs, List.filter_append, filter_isFinishCfg_map,
      isFinishCfg]
  · simp [handle_known_packs]
  · simp [handle_known_packs]

/-- C9: a valid-named login start with proxying disabled stores a
provisional profile built from the client-supplied id and name, with no
properties and no ban-action tags, and always sends the encryption
request, whatever the online-mode flag says. -/
theorem login_start_unconditional_encryption (cfg : Config) (st : ClientState)
    (name : List Char) (uuid : Nat) (bungee : Except (List Char) GameProfile)
    (hvalid : is_valid_player_name name = true)
    (hproxy : cfg.proxy_enabled = false) :
    (handle_login_start cfg st name uuid bungee).1
        = { st with gameprofile := some { id := uuid, name := name,
                                          properties := [], profile_actions := none } }
    ∧ (handle_login_start cfg st name uuid bungee).2
        = [Act.sendEncryptionRequest cfg.online_mode] := by
  constructor <;> simp [handle_login_start, hvalid, hproxy]

/-- Witness for C9: end-to-end scenario A, name Steve, online mode
disabled. -/
theorem login_start_unconditional_encryption_witness :
    is_valid_player_name steveName = true
    ∧ cfgOffline.proxy_enabled = false
    ∧ (handle_login_start cfgOffline stFresh steveName 7 (.error [])).1
        = { stFresh with gameprofile := some provisionalSteve }
    ∧ (handle_login_start cfgOffline stFresh steveName 7 (.error [])).2
        = [Act.sendEncryptionRequest false] := by
  have h := login_start_unconditional_encryption cfgOffline stFresh steveName 7
    (.error []) (by decide) rfl
  exact ⟨by decide, rfl, h.1, h.2⟩

/-- C10: a plugin message on a channel whose name starts with either
brand spelling stores a valid-UTF-8 payload as the client brand and
kicks on an invalid one without touching the brand; a message on any
other channel changes nothing and kicks nobody. -/
theorem plugin_message_brand (st : ClientState) (channel : List Char)
    (data : List Nat) :
    ((brandChannelNew.isPrefixOf channel || brandChannelOld.isPrefixOf channel) = true →
        (utf8Valid data = true →
            handle_plugin_message st channel data = ({ st with brand := some data }, []))
        ∧ (utf8Valid data = false →
            handle_plugin_message st channel data
              = (st, [Act.kick (("invalid utf-8 sequence").toList)])))
    ∧ ((brandChannelNew.isPrefixOf channel || brandChannelOld.isPrefixOf channel) = false →
        handle_plugin_message st channel data = (st, []))
    ∧ (st.brand ≠ some data →
        ((handle_plugin_message st channel data).1.brand = some data
          ↔ (brandChannelNew.isPrefixOf channel || brandChannelOld.isPrefixOf channel) = true
            ∧ utf8Valid data = true)) := by
  refine ⟨?_, ?_, ?_⟩
  · intro hch
    constructor <;> intro hv <;> simp [handle_plugin_message, hch, hv]
  · intro hch
    simp [handle_plugin_message, hch]
  · intro hbrand
    by_cases hch : (brandChannelNew.isPrefixOf channel || brandChannelOld.isPrefixOf channel) = true
    · by_cases hv : utf8Valid data = true
      · simp [handle_plugin_message, hch, hv]
      · simp only [Bool.not_eq_true] at hv
        simp [handle_plugin_message, hch, hv, hbrand]
    · simp only [Bool.not_eq_true] at hch
      simp [handle_plugin_message, hch, hbrand]

/-- C1 (defect witness): in online mode under a configuration that
disallows banned accounts, a verified profile with a non-empty
ban-action list makes the handler kick — and then `autenticate` still
returns the profile, so the handler stores it and `finish_login` sends
`LoginSuccess` for the very session it just kicked. -/
theorem ban_kick_still_sends_login_success :
    (handle_encryption_response cfgStrict true (.ok [1]) (.ok ())
        (.ok bannedProfile) texAllOk stLoginSteve).map (fun r => r.2)
      = some [Act.setEncryption, Act.kick cantJoinMsg,
              Act.sendLoginSuccess 9 steveName] := by
  decide

/-- C2 (defect witness): a failing RSA decryption of the shared secret
hits `.unwrap()` and panics the handler instead of kicking with the
failure description. -/
theorem decrypt_failure_panics :
    handle_encryption_response cfgStrict true (.error (("x").toList)) (.ok ())
        (.ok bannedProfile) texAllOk stLoginSteve = none := by
  rfl

/-- C3 (defect witness): when the identity-service query fails, the
handler kicks with that error description — but the provisional profile
stored at login start is still present, so `finish_login` runs anyway
and `LoginSuccess` is sent for the same session. -/
theorem auth_error_kicks_then_sends_login_success :
    (handle_encryption_response cfgStrict true (.ok [1]) (.ok ())
        (.error (("Failed to verify username").toList)) texAllOk stLoginSteve).map
        (fun r => r.2)
      = some [Act.setEncryption,
              Act.kick (("Failed to verify username").toList),
              Act.sendLoginSuccess 7 steveName] := by
  decide

/-- Permissive ban policy with one configured allowed action. -/
def cfgPermissive : Config :=
  { cfgStrict with allow_banned_players := true
                   allowed_actions := [("USING_BANNED_SKIN").toList] }

/-- Permissive ban policy with the default empty allow-list. -/
def cfgPermissiveEmpty : Config :=
  { cfgStrict with allow_banned_players := true }

/-- A verified profile whose ban-action list is present but empty. -/
def emptyActionsProfile : GameProfile :=
  { id := 3
    name := steveName
    properties := []
    profile_actions := some [] }

/-- A verified profile carrying one tag outside the allow-list. -/
def badActionProfile : GameProfile :=
  { id := 4
    name := steveName
    properties := []
    profile_actions := some [("SOME_OTHER_ACTION").toList] }

/-- C4 (defect witness): the permissive allow-list check is inverted.
A profile whose (empty) tag list lies entirely inside the allow-list is
kicked because it does not contain the configured allowed action, while
a profile carrying a tag outside an empty allow-list is not kicked at
all — the loop ranges over the configured allowed actions and tests
containment in the profile, not the other way around. -/
theorem allowlist_check_inverted :
    (autenticate cfgPermissive true (.ok emptyActionsProfile) texAllOk).2
        = [Act.kick cantJoinMsg]
    ∧ (autenticate cfgPermissive true (.ok emptyActionsProfile) texAllOk).1
        = .ok emptyActionsProfile
    ∧ (autenticate cfgPermissiveEmpty true (.ok badActionProfile) texAllOk).2 = []
    ∧ (autenticate cfgPermissiveEmpty true (.ok badActionProfile) texAllOk).1
        = .ok badActionProfile := by
  refine ⟨by decide, by rfl, by decide, by rfl⟩

end Pumpkin
